import Mathlib

/-!
Verification of the JR AutoRAG admin console (React frontend under src/)
against its natural-language specification.  The frontend source is embedded
directly; the FastAPI backend (query pipeline, trace recorder, preset and
config manager, provider discovery) is not part of the repository snapshot,
so those components are modelled from the specification text and marked as
such in their doc comments.
-/

namespace JRAutoRAG

/-- Shallow embedding of JSON values, used for request bodies built with
JSON.stringify and for the untyped details maps of pipeline steps.
Numbers are modelled as rationals. -/
inductive JsonValue where
  | null : JsonValue
  | bool (b : Bool) : JsonValue
  | num (q : ℚ) : JsonValue
  | str (s : String) : JsonValue
  | arr (xs : List JsonValue) : JsonValue
  | obj (fields : List (String × JsonValue)) : JsonValue

/-- ProviderConfig from src/src/types.ts lines 1-8: which runtime and model
triad to use for each pipeline role.  Optional fields become Option. -/
structure ProviderConfig where
  name : String
  base_url : String
  planner_model : Option String
  gatherer_model : Option String
  generator_model : Option String
  api_key : Option String
deriving DecidableEq, Repr

/-- ProviderProfile from src/src/types.ts lines 10-13: a named, saved
ProviderConfig snapshot. -/
structure ProviderProfile where
  name : String
  provider : ProviderConfig
deriving DecidableEq, Repr

/-- RetrievalDefaults from src/src/types.ts lines 15-27.  TypeScript numbers
are modelled as rationals, since the console writes arbitrary numeric input
into these fields. -/
structure RetrievalDefaults where
  hybrid : Bool
  dense_k : ℚ
  sparse_k : ℚ
  rerank_pool : ℚ
  top_n : ℚ
  compression : Bool
  target_tokens : ℚ
  raptor : String
  graph : Bool
  coverage_target : ℚ
  max_context_tokens : ℚ
deriving DecidableEq, Repr

/-- AppConfig from src/src/types.ts lines 29-34: the configuration object the
admin console edits and persists. -/
structure AppConfig where
  profile : String
  provider : Option ProviderConfig
  provider_profiles : List ProviderProfile
  retrieval : RetrievalDefaults
deriving DecidableEq, Repr

/-- ChunkOut from src/src/types.ts lines 43-48: a scored evidence chunk as it
appears on the wire. -/
structure ChunkOut where
  id : String
  title : String
  snippet : String
  score : ℚ
deriving DecidableEq, Repr

/-- PipelineStep from src/src/types.ts lines 50-55.  The untyped details map
is a list of key-value pairs of JSON values. -/
structure PipelineStep where
  name : String
  duration_ms : ℚ
  details : List (String × JsonValue)
  status : String

/-- QueryResponse from src/src/types.ts lines 57-63: the body the console
consumes from the query endpoint, including the steps sequence. -/
structure QueryResponse where
  answer : String
  chunks : List ChunkOut
  trace_id : String
  metrics : List (String × ℚ)
  steps : List PipelineStep

/-- ProviderKind from src/src/types.ts line 73. -/
inductive ProviderKind where
  | ollama : ProviderKind
  | lmstudio : ProviderKind
  | openai : ProviderKind
deriving DecidableEq, Repr

/-- LocalProviderInfo from src/src/types.ts lines 75-84: one entry of the
local-provider discovery response. -/
structure LocalProviderInfo where
  kind : ProviderKind
  name : String
  base_url : String
  models : List String
  running : List String
  version : Option String
  status : Option String
  error_message : Option String
deriving DecidableEq, Repr

/-- Request body built by handleAsk in src/src/App.tsx lines 363-379: the
call sends JSON.stringify of the object with the single key question. -/
def handleAskBody (question : String) : JsonValue :=
  JsonValue.obj [("question", JsonValue.str question)]

/-- QueryResult as defined in section 3 of the spec, at the granularity the
query endpoint exposes: answer, ordered evidence chunks, trace id, metrics
and the sequence of pipeline steps.  Written from the words of the spec for
comparison with the QueryResponse type of the source. -/
structure QueryResult where
  answer : String
  evidence : List ChunkOut
  trace_id : String
  metrics : List (String × ℚ)
  steps : List PipelineStep

/-- Field-for-field reading of a consumed QueryResponse as a QueryResult of
section 3 of the spec. -/
def QueryResponse.toSpec (r : QueryResponse) : QueryResult :=
  { answer := r.answer
    evidence := r.chunks
    trace_id := r.trace_id
    metrics := r.metrics
    steps := r.steps }

/-- Inverse reading: a section 3 QueryResult determines the QueryResponse the
console consumes. -/
def QueryResult.toResponse (s : QueryResult) : QueryResponse :=
  { answer := s.answer
    chunks := s.evidence
    trace_id := s.trace_id
    metrics := s.metrics
    steps := s.steps }

/-- Profile selection from handleSelectProfile in src/src/App.tsx lines
271-280: look up the saved profile by name; when found, set the recorded
profile name and swap the active provider in a single state update, otherwise
return the configuration unchanged. -/
def selectProfile (cfg : AppConfig) (name : String) : AppConfig :=
  match cfg.provider_profiles.find? (fun p => p.name == name) with
  | some prof => { cfg with profile := name, provider := some prof.provider }
  | none => cfg

/-- Profile saving from handleAddProfile in src/src/App.tsx lines 282-298:
when a provider is configured and the trimmed new name is non-empty, append
the snapshot to provider_profiles and record the new name as active. -/
def handleAddProfile (cfg : AppConfig) (newProfileName : String) : AppConfig :=
  match cfg.provider with
  | none => cfg
  | some prov =>
    if newProfileName.trim.isEmpty then cfg
    else
      { cfg with
        provider_profiles :=
          cfg.provider_profiles ++ [{ name := newProfileName.trim, provider := prov }]
        profile := newProfileName.trim }

/-- Names of the numeric RetrievalDefaults fields reachable from the numeric
inputs of the console (handleNumber in src/src/App.tsx lines 413-415). -/
inductive NumericField where
  | dense_k : NumericField
  | sparse_k : NumericField
  | rerank_pool : NumericField
  | top_n : NumericField
  | target_tokens : NumericField
  | coverage_target : NumericField
  | max_context_tokens : NumericField
deriving DecidableEq, Repr

/-- Projection of a numeric field out of a RetrievalDefaults record. -/
def numField (r : RetrievalDefaults) : NumericField → ℚ
  | NumericField.dense_k => r.dense_k
  | NumericField.sparse_k => r.sparse_k
  | NumericField.rerank_pool => r.rerank_pool
  | NumericField.top_n => r.top_n
  | NumericField.target_tokens => r.target_tokens
  | NumericField.coverage_target => r.coverage_target
  | NumericField.max_context_tokens => r.max_context_tokens

/-- Per-field numeric update from updateRetrieval and handleNumber in
src/src/App.tsx lines 267-269 and 413-415: the named field is overwritten
with the parsed number, with no validation or clamping. -/
def updateRetrievalNumber (r : RetrievalDefaults) (f : NumericField) (v : ℚ) :
    RetrievalDefaults :=
  match f with
  | NumericField.dense_k => { r with dense_k := v }
  | NumericField.sparse_k => { r with sparse_k := v }
  | NumericField.rerank_pool => { r with rerank_pool := v }
  | NumericField.top_n => { r with top_n := v }
  | NumericField.target_tokens => { r with target_tokens := v }
  | NumericField.coverage_target => { r with coverage_target := v }
  | NumericField.max_context_tokens => { r with max_context_tokens := v }

/-- Invariant on RetrievalConfig stated in section 3 of the spec. -/
def retrievalInvariant (r : RetrievalDefaults) : Prop :=
  r.top_n ≤ r.rerank_pool ∧ 0 ≤ r.dense_k ∧ 0 ≤ r.sparse_k ∧
    0 ≤ r.rerank_pool ∧ 0 ≤ r.top_n ∧
    0 ≤ r.coverage_target ∧ r.coverage_target ≤ 1

instance (r : RetrievalDefaults) : Decidable (retrievalInvariant r) := by
  unfold retrievalInvariant
  infer_instance

/-- Modelled from the spec: the Chunk of section 3 of the spec; the backend
chunk store implementation is not in the repository snapshot.  A chunk is an
immutable unit with id, title, text and owning source document id. -/
structure Chunk where
  id : ℕ
  title : String
  text : String
  source : ℕ
deriving DecidableEq, Repr

/-- Modelled from the spec: token length of a chunk, taken as the length of
its text, matching the cumulative-text-length reading of section 4.2. -/
def Chunk.tokens (c : Chunk) : ℕ := c.text.length

/-- Modelled from the spec: a chunk with a relevance score, as produced by the
dense and sparse lookups and consumed by fusion and reranking (section 4.2);
the backend retriever implementation is not in the repository snapshot. -/
structure ScoredChunk where
  chunk : Chunk
  score : ℚ
deriving DecidableEq, Repr

/-- Modelled from the spec: RetrievalConfig of section 3 as owned by the
backend Preset and Config Manager, which is not in the repository snapshot.
Count fields are naturals, coverage_target is a rational in the unit
interval. -/
structure RetrievalConfig where
  hybrid : Bool
  dense_k : ℕ
  sparse_k : ℕ
  rerank_pool : ℕ
  top_n : ℕ
  compression : Bool
  target_tokens : ℕ
  raptor_mode : String
  graph : Bool
  coverage_target : ℚ
  max_context_tokens : ℕ
deriving DecidableEq, Repr

/-- Modelled from the spec: the SubQuery report of section 3, produced by the
planner and annotated by the retriever.  Wall-clock duration is environmental
and recorded as zero here. -/
structure SubQueryReport where
  query : String
  chunks_found : ℕ
  duration_ms : ℚ
deriving DecidableEq, Repr

/-- Modelled from the spec: the output of the Hybrid Retriever contract of
section 4.2; the retriever is not in the repository snapshot. -/
structure RetrieveResult where
  chunks : List ScoredChunk
  unique_sources : ℕ
  sub_query_reports : List SubQueryReport

/-- Cumulative token length of an evidence list. -/
def sumTokens (xs : List ScoredChunk) : ℕ :=
  (xs.map (fun c => c.chunk.tokens)).sum

/-- Deduplication of scored candidates by chunk id, keeping the first
occurrence, as required by the union step of section 4.2. -/
def dedupById (xs : List ScoredChunk) : List ScoredChunk :=
  xs.foldl
    (fun acc c => if acc.any (fun d => d.chunk.id == c.chunk.id) then acc else acc ++ [c])
    []

/-- Deduplication of source document ids, keeping first occurrences. -/
def dedupNat (xs : List ℕ) : List ℕ :=
  xs.foldl (fun acc n => if acc.contains n then acc else acc ++ [n]) []

/-- Insertion of a scored chunk into a list sorted by descending score; ties
keep the existing order, giving the deterministic tie-break of section 4.2. -/
def insertDesc (c : ScoredChunk) : List ScoredChunk → List ScoredChunk
  | [] => [c]
  | d :: ds => if d.score < c.score then c :: d :: ds else d :: insertDesc c ds

/-- Deterministic insertion sort by descending score. -/
def sortDesc (xs : List ScoredChunk) : List ScoredChunk :=
  xs.foldr insertDesc []

/-- Modelled from the spec: the coverage-driven selection of section 4.2; the
retriever is not in the repository snapshot.  Starting from the reranked list,
chunks are accumulated until the cumulative token length reaches
coverage_target times max_context_tokens, or top_n chunks are used, whichever
comes first; a chunk whose addition would push the total past
max_context_tokens is not taken, so the evidence never exceeds
max_context_tokens. -/
def coverageSelect (maxTok : ℕ) (threshold : ℚ) (topN : ℕ) :
    ℕ → ℕ → List ScoredChunk → List ScoredChunk
  | _, _, [] => []
  | count, cum, c :: rest =>
    if count < topN ∧ (cum : ℚ) < threshold ∧ cum + c.chunk.tokens ≤ maxTok then
      c :: coverageSelect maxTok threshold topN (count + 1) (cum + c.chunk.tokens) rest
    else []

/-- Modelled from the spec: the Hybrid Retriever of section 4.2; the backend
retriever is not in the repository snapshot.  The chunk store dense and sparse
lookups are external collaborators and appear as function parameters, as do
the reranking scorer and the compression pass, which the spec leaves
unspecified (section 9).  For each sub-query the dense top dense_k and, when
hybrid, sparse top sparse_k candidates are unioned and deduplicated by id and
a report is recorded; candidates are fused and sorted deterministically,
truncated to rerank_pool, rescored by the reranker, truncated to top_n,
optionally compressed, and passed through coverage-driven selection. -/
def retrieve (dense sparse : String → ℕ → List ScoredChunk)
    (rerankScore : Chunk → ℚ) (compress : Chunk → Chunk)
    (subQueries : List String) (cfg : RetrievalConfig) : RetrieveResult :=
  let perQuery := subQueries.map (fun q =>
    let cands := dense q cfg.dense_k ++ (if cfg.hybrid then sparse q cfg.sparse_k else [])
    (q, dedupById cands))
  let reports := perQuery.map (fun p =>
    { query := p.1, chunks_found := p.2.length, duration_ms := 0 })
  let fused := dedupById (perQuery.foldl (fun acc p => acc ++ p.2) [])
  let pool := (sortDesc fused).take cfg.rerank_pool
  let reranked :=
    (sortDesc (pool.map (fun c => { chunk := c.chunk, score := rerankScore c.chunk }))).take
      cfg.top_n
  let prepared :=
    if cfg.compression then reranked.map (fun c => { c with chunk := compress c.chunk })
    else reranked
  let evidence :=
    coverageSelect cfg.max_context_tokens
      (cfg.coverage_target * (cfg.max_context_tokens : ℚ)) cfg.top_n 0 0 prepared
  { chunks := evidence
    unique_sources := (dedupNat (evidence.map (fun c => c.chunk.source))).length
    sub_query_reports := reports }

/-- Modelled from the spec: the fixed fallback message of sections 4.4 and 8
for the no-provider case; the backend Answer Generator is not in the
repository snapshot. -/
def noProviderMessage : String :=
  "No provider configured. Start a local runtime and select a model to get generated answers."

/-- Modelled from the spec: the fixed fallback message of section 4.4 for the
empty-evidence case. -/
def noEvidenceMessage : String :=
  "No evidence found for this question in the ingested documents."

/-- Modelled from the spec: the degraded answer of section 4.4 returned when
the provider call fails. -/
def generationFailedMessage : String :=
  "Generation failed; the provider returned an error. Evidence was retrieved but no answer could be generated."

/-- Modelled from the spec: the result of the Answer Generator contract of
section 4.4. -/
structure GenerationResult where
  answer : String
  context_tokens : ℕ
  provider : Option String
  model : Option String
  fallback : Bool
  error : Option String
deriving DecidableEq, Repr

/-- Modelled from the spec: the prompt built from the question and the
evidence set in retriever order (section 4.4). -/
def buildPrompt (question : String) (evidence : List ScoredChunk) : String :=
  (evidence.map (fun c => c.chunk.text)).foldr (fun t acc => t ++ "\n" ++ acc) question

/-- Modelled from the spec: the Answer Generator of section 4.4; the backend
generator is not in the repository snapshot.  The provider call is an external
collaborator and appears as a function parameter; its failures are values,
never exceptions.  With no provider configured the result is the fixed
fallback with fallback set to true; with empty evidence a deterministic
no-evidence fallback is returned; a failed provider call yields a degraded
answer with the error recorded. -/
def generate (callModel : String → String → Except String String)
    (question : String) (evidence : List ScoredChunk)
    (pc : Option ProviderConfig) : GenerationResult :=
  match pc with
  | none =>
    { answer := noProviderMessage, context_tokens := 0, provider := none,
      model := none, fallback := true, error := none }
  | some prov =>
    if evidence.isEmpty then
      { answer := noEvidenceMessage, context_tokens := 0, provider := some prov.name,
        model := prov.generator_model, fallback := true, error := none }
    else
      match callModel (prov.generator_model.getD "") (buildPrompt question evidence) with
      | Except.ok text =>
        { answer := text, context_tokens := sumTokens evidence,
          provider := some prov.name, model := prov.generator_model,
          fallback := false, error := none }
      | Except.error e =>
        { answer := generationFailedMessage, context_tokens := sumTokens evidence,
          provider := some prov.name, model := prov.generator_model,
          fallback := false, error := some e }

/-- Modelled from the spec: the Query Planner of section 4.1; the backend
planner is not in the repository snapshot.  With no planning model the plan
degrades deterministically to the question itself; a failed planner call
applies the same fallback and notes the error, never aborting the query. -/
def plan (planModel : Option (String → Except String (List String)))
    (question : String) : List String × Option String :=
  match planModel with
  | none => ([question], none)
  | some pm =>
    match pm question with
    | Except.ok qs =>
      let qs2 := qs.filter (fun s => !s.isEmpty)
      (if qs2.isEmpty then [question] else qs2, none)
    | Except.error e => ([question], some e)

/-- Modelled from the spec: a document of the store, owning chunks (sections
3 and 6); the backend document store is not in the repository snapshot. -/
structure Document where
  id : ℕ
  title : String
  text : String
deriving DecidableEq, Repr

/-- Modelled from the spec: the Trace of section 3, a durable copy of the
observable fields of a QueryResult, keyed by trace id; the backend Trace
Recorder is not in the repository snapshot. -/
structure Trace where
  id : String
  prompt : String
  answer : String
  metrics : List (String × ℚ)
  steps : List PipelineStep

/-- Modelled from the spec: the backend state holding documents, the chunk
store, the active configuration and the append-only trace log; the backend is
not in the repository snapshot. -/
structure ServerState where
  documents : List Document
  chunks : List Chunk
  config : RetrievalConfig
  provider : Option ProviderConfig
  traces : List Trace
  next_trace_id : ℕ

/-- Modelled from the spec: a pipeline step record with an error detail when
a stage failure was absorbed (sections 4.1, 4.4 and 7). -/
def mkStep (name : String) (ok : Bool) (details : List (String × JsonValue)) :
    PipelineStep :=
  { name := name, duration_ms := 0, details := details,
    status := if ok then "completed" else "error" }

/-- Modelled from the spec: the query endpoint of sections 2 and 6; the
backend is not in the repository snapshot.  The question is planned, the plan
is retrieved against the chunk store, the evidence is passed to generation,
and exactly one Trace is appended to the trace log whatever the outcome; the
external collaborators appear as function parameters. -/
def queryEndpoint (dense sparse : String → ℕ → List ScoredChunk)
    (rerankScore : Chunk → ℚ) (compress : Chunk → Chunk)
    (planModel : Option (String → Except String (List String)))
    (callModel : String → String → Except String String)
    (st : ServerState) (question : String) : QueryResult × ServerState :=
  let planned := plan planModel question
  let r := retrieve dense sparse rerankScore compress planned.1 st.config
  let g := generate callModel question r.chunks st.provider
  let steps :=
    [ mkStep "planning" true
        ((planned.2.map (fun e => [("error", JsonValue.str e)])).getD [] ++
          [("queries", JsonValue.arr (planned.1.map JsonValue.str))])
    , mkStep "retrieval" true
        [("total_chunks", JsonValue.num (r.chunks.length : ℚ)),
         ("unique_sources", JsonValue.num (r.unique_sources : ℚ))]
    , mkStep "generation" (g.error.isNone)
        ([("fallback", JsonValue.bool g.fallback)] ++
          (g.error.map (fun e => [("error", JsonValue.str e)])).getD []) ]
  let metrics :=
    [("tokens", (sumTokens r.chunks : ℚ)),
     ("chunk_count", (r.chunks.length : ℚ)),
     ("duration_ms", 0)]
  let tid := toString st.next_trace_id
  let evidence := r.chunks.map (fun c =>
    { id := toString c.chunk.id, title := c.chunk.title,
      snippet := c.chunk.text, score := c.score })
  let result : QueryResult :=
    { answer := g.answer, evidence := evidence, trace_id := tid,
      metrics := metrics, steps := steps }
  let tr : Trace :=
    { id := tid, prompt := question, answer := g.answer,
      metrics := metrics, steps := steps }
  (result,
   { st with traces := st.traces ++ [tr], next_trace_id := st.next_trace_id + 1 })

/-- Modelled from the spec: document deletion of sections 3 and 5; the backend
is not in the repository snapshot.  The owning chunks are destroyed and the
index rebuilt; the trace log is untouched. -/
def deleteDocument (st : ServerState) (docId : ℕ) : ServerState :=
  { st with
    documents := st.documents.filter (fun d => d.id != docId)
    chunks := st.chunks.filter (fun c => c.source != docId) }

/-- Modelled from the spec: the closed set of preset names of section 4.6. -/
inductive PresetName where
  | fast : PresetName
  | balanced : PresetName
  | thorough : PresetName
deriving DecidableEq, Repr

/-- Modelled from the spec: apply_preset of section 4.6; the backend Preset
and Config Manager is not in the repository snapshot.  Each preset fixes
top_n, target_tokens and coverage_target; fields the preset does not define
retain their current values. -/
def applyPreset (p : PresetName) (cfg : RetrievalConfig) : RetrievalConfig :=
  match p with
  | PresetName.fast =>
    { cfg with top_n := 3, target_tokens := 800, coverage_target := 1/2 }
  | PresetName.balanced =>
    { cfg with top_n := 5, target_tokens := 1600, coverage_target := 7/10 }
  | PresetName.thorough =>
    { cfg with top_n := 10, target_tokens := 3000, coverage_target := 9/10 }

/-- Modelled from the spec: the successful payload of a local-provider probe
of section 4.3. -/
structure ProbeOk where
  models : List String
  running : List String
  version : Option String
deriving DecidableEq, Repr

/-- Modelled from the spec: the local-provider discovery of sections 4.3 and
6; the backend discovery endpoint is not in the repository snapshot.  Each
probe outcome is an external collaborator value; a failed probe still yields
an entry for its provider, carrying status error and the error message,
rather than omitting the provider. -/
def discoverLocalProviders
    (probes : List (ProviderKind × String × String × Except String ProbeOk)) :
    List LocalProviderInfo :=
  probes.map (fun p =>
    match p with
    | (kind, name, url, Except.ok okr) =>
      { kind := kind, name := name, base_url := url, models := okr.models,
        running := okr.running, version := okr.version, status := none,
        error_message := none }
    | (kind, name, url, Except.error msg) =>
      { kind := kind, name := name, base_url := url, models := [],
        running := [], version := none, status := some "error",
        error_message := some msg })

/-- Upload status union from the UploadProgress interface in
src/src/components/features/ChatInterface.tsx lines 233-237. -/
inductive UploadStatus where
  | pending : UploadStatus
  | uploading : UploadStatus
  | processing : UploadStatus
  | done : UploadStatus
  | error : UploadStatus
deriving DecidableEq, Repr

/-- UploadProgress entry from src/src/components/features/ChatInterface.tsx
lines 233-237: a filename, a status, and an optional error message. -/
structure UploadProgress where
  filename : String
  status : UploadStatus
  error : Option String
deriving DecidableEq, Repr

/-- Outcome of one awaited uploadFile call in processFiles: the promise
either resolves or rejects with a stringified error. -/
inductive UploadOutcome where
  | ok : UploadOutcome
  | failed (msg : String) : UploadOutcome
deriving DecidableEq, Repr

/-- Filename filter of processFiles in
src/src/components/features/ChatInterface.tsx lines 272-275: the
case-insensitive extension test for pdf, doc, docx, txt, md and markdown,
realized as a suffix test on the lower-cased character sequence. -/
def isSupportedFilename (name : String) : Bool :=
  [".pdf", ".doc", ".docx", ".txt", ".md", ".markdown"].any
    (fun suf => suf.data.isSuffixOf (name.data.map Char.toLower))

/-- Initial queue entry for a file: processFiles starts every entry as
pending with no error. -/
def pendEntry (f : String × UploadOutcome) : UploadProgress :=
  { filename := f.1, status := UploadStatus.pending, error := none }

/-- Queue entry for the file whose turn has started: status uploading. -/
def upEntry (f : String × UploadOutcome) : UploadProgress :=
  { filename := f.1, status := UploadStatus.uploading, error := none }

/-- Terminal queue entry for a file: done on upload success, error with the
stringified error on failure, matching the two setUploadQueue updates in
src/src/components/features/ChatInterface.tsx lines 297-306. -/
def finishedEntry (f : String × UploadOutcome) : UploadProgress :=
  match f.2 with
  | UploadOutcome.ok => { filename := f.1, status := UploadStatus.done, error := none }
  | UploadOutcome.failed m =>
    { filename := f.1, status := UploadStatus.error, error := some m }

/-- Successive queue states produced by the sequential loop of processFiles in
src/src/components/features/ChatInterface.tsx lines 289-307: for each file in
order, the entry is first marked uploading, then terminal according to the
upload outcome, while earlier entries stay terminal and later entries stay
pending.  The upload outcome of each file is part of the input, standing for
the awaited uploadFile call. -/
def processStates (processed : List UploadProgress) :
    List (String × UploadOutcome) → List (List UploadProgress)
  | [] => []
  | f :: rest =>
    (processed ++ upEntry f :: rest.map pendEntry) ::
      (processed ++ finishedEntry f :: rest.map pendEntry) ::
        processStates (processed ++ [finishedEntry f]) rest

/-- Full trace of queue states of processFiles in
src/src/components/features/ChatInterface.tsx lines 271-311: invalid names
are filtered out; with no valid file the queue is never initialized;
otherwise the all-pending initial queue is followed by the sequential
per-file states. -/
def validFiles (files : List (String × UploadOutcome)) :
    List (String × UploadOutcome) :=
  files.filter (fun f => isSupportedFilename f.1)

def processFilesStates (files : List (String × UploadOutcome)) :
    List (List UploadProgress) :=
  if (validFiles files).isEmpty then []
  else (validFiles files).map pendEntry :: processStates [] (validFiles files)

/-- Sequential shape of a queue state: some prefix of the files is terminal,
at most the next file is uploading, and all later files are pending. -/
def seqShape (valid : List (String × UploadOutcome))
    (s : List UploadProgress) : Prop :=
  ∃ k,
    s = (valid.take k).map finishedEntry ++ (valid.drop k).map pendEntry ∨
    ∃ f tail, valid.drop k = f :: tail ∧
      (s = (valid.take k).map finishedEntry ++ upEntry f :: tail.map pendEntry ∨
       s = (valid.take k).map finishedEntry ++ finishedEntry f :: tail.map pendEntry)

/-- Concrete backend retrieval configuration used to instantiate proved
statements on explicit inputs. -/
def sampleRetrievalConfig : RetrievalConfig :=
  { hybrid := true, dense_k := 8, sparse_k := 8, rerank_pool := 10, top_n := 5,
    compression := false, target_tokens := 1600, raptor_mode := "flat",
    graph := false, coverage_target := 7/10, max_context_tokens := 4096 }

/-- Concrete frontend retrieval defaults satisfying the documented invariant,
used to instantiate proved statements on explicit inputs. -/
def sampleDefaults : RetrievalDefaults :=
  { hybrid := true, dense_k := 8, sparse_k := 8, rerank_pool := 10, top_n := 5,
    compression := false, target_tokens := 1600, raptor := "flat",
    graph := false, coverage_target := 7/10, max_context_tokens := 4096 }

/-- Concrete provider configuration used to instantiate proved statements. -/
def sampleProvider : ProviderConfig :=
  { name := "Ollama", base_url := "http://localhost:11434",
    planner_model := some "llama3", gatherer_model := some "llama3",
    generator_model := some "llama3", api_key := none }

/-- Concrete app configuration with one saved profile, used to instantiate
proved statements on explicit inputs. -/
def sampleAppConfig : AppConfig :=
  { profile := "Default", provider := some sampleProvider,
    provider_profiles := [{ name := "Local", provider := sampleProvider }],
    retrieval := sampleDefaults }

/-- Concrete chunk used to instantiate proved statements. -/
def sampleChunk : Chunk :=
  { id := 1, title := "Doc", text := "hello world", source := 1 }

/-- Coverage-driven selection never takes more chunks than the remaining
budget below top_n allows. -/
theorem coverageSelect_length_le (maxTok : ℕ) (th : ℚ) (topN : ℕ) :
    ∀ (l : List ScoredChunk) (count cum : ℕ), count ≤ topN →
      count + (coverageSelect maxTok th topN count cum l).length ≤ topN := by
  intro l
  induction l with
  | nil => intro count cum h; simpa [coverageSelect] using h
  | cons c rest ih =>
    intro count cum h
    rw [coverageSelect]
    by_cases hcond : count < topN ∧ (cum : ℚ) < th ∧ cum + c.chunk.tokens ≤ maxTok
    · rw [if_pos hcond]
      have hrec := ih (count + 1) (cum + c.chunk.tokens) hcond.1
      simp only [List.length_cons]
      omega
    · rw [if_neg hcond]
      simpa using h

/-- Coverage-driven selection never pushes the cumulative token total past
the maximum context budget. -/
theorem coverageSelect_tokens_le (maxTok : ℕ) (th : ℚ) (topN : ℕ) :
    ∀ (l : List ScoredChunk) (count cum : ℕ), cum ≤ maxTok →
      cum + sumTokens (coverageSelect maxTok th topN count cum l) ≤ maxTok := by
  intro l
  induction l with
  | nil => intro count cum h; simpa [coverageSelect, sumTokens] using h
  | cons c rest ih =>
    intro count cum h
    rw [coverageSelect]
    by_cases hcond : count < topN ∧ (cum : ℚ) < th ∧ cum + c.chunk.tokens ≤ maxTok
    · rw [if_pos hcond]
      have hrec := ih (count + 1) (cum + c.chunk.tokens) hcond.2.2
      simp only [sumTokens, List.map_cons, List.sum_cons] at hrec ⊢
      omega
    · rw [if_neg hcond]
      simpa [sumTokens] using h

/-- Claim C1: for every RetrievalConfig with top_n at most rerank_pool, the
Hybrid Retriever returns an evidence sequence of length at most top_n whose
cumulative token length is at most max_context_tokens, for every list of
sub-queries and every chunk store content, reranker and compressor. -/
theorem retrieve_respects_budgets
    (dense sparse : String → ℕ → List ScoredChunk) (rerankScore : Chunk → ℚ)
    (compress : Chunk → Chunk) (subQueries : List String) (cfg : RetrievalConfig)
    (_h : cfg.top_n ≤ cfg.rerank_pool) :
    (retrieve dense sparse rerankScore compress subQueries cfg).chunks.length ≤ cfg.top_n ∧
    sumTokens (retrieve dense sparse rerankScore compress subQueries cfg).chunks ≤
      cfg.max_context_tokens := by
  constructor
  · simpa using coverageSelect_length_le cfg.max_context_tokens
      (cfg.coverage_target * (cfg.max_context_tokens : ℚ)) cfg.top_n _ 0 0 (Nat.zero_le _)
  · simpa using coverageSelect_tokens_le cfg.max_context_tokens
      (cfg.coverage_target * (cfg.max_context_tokens : ℚ)) cfg.top_n _ 0 0 (Nat.zero_le _)

/-- Witness for claim C1 at a concrete configuration and store. -/
theorem retrieve_respects_budgets_witness :
    sampleRetrievalConfig.top_n ≤ sampleRetrievalConfig.rerank_pool ∧
    ((retrieve (fun _ _ => [{ chunk := sampleChunk, score := 9/10 }]) (fun _ _ => [])
        (fun _ => 1) id ["q"] sampleRetrievalConfig).chunks.length ≤
          sampleRetrievalConfig.top_n ∧
      sumTokens (retrieve (fun _ _ => [{ chunk := sampleChunk, score := 9/10 }]) (fun _ _ => [])
        (fun _ => 1) id ["q"] sampleRetrievalConfig).chunks ≤
          sampleRetrievalConfig.max_context_tokens) :=
  ⟨by decide,
   retrieve_respects_budgets (fun _ _ => [{ chunk := sampleChunk, score := 9/10 }])
     (fun _ _ => []) (fun _ => 1) id ["q"] sampleRetrievalConfig (by decide)⟩

/-- Claim C2: every call to the query endpoint appends exactly one Trace to
the trace log, whatever the planner or provider outcome; already-recorded
traces are left unchanged, and deleting a document never alters them. -/
theorem queryEndpoint_appends_exactly_one_trace
    (dense sparse : String → ℕ → List ScoredChunk) (rerankScore : Chunk → ℚ)
    (compress : Chunk → Chunk)
    (planModel : Option (String → Except String (List String)))
    (callModel : String → String → Except String String)
    (st : ServerState) (question : String) (docId : ℕ) :
    ((queryEndpoint dense sparse rerankScore compress planModel callModel st
        question).2.traces.length = st.traces.length + 1) ∧
    ((queryEndpoint dense sparse rerankScore compress planModel callModel st
        question).2.traces.take st.traces.length = st.traces) ∧
    (deleteDocument st docId).traces = st.traces := by
  refine ⟨?_, ?_, rfl⟩
  · simp [queryEndpoint]
  · simp only [queryEndpoint]
    exact List.take_left _ _

/-- Claim C3: with no provider configured, the Answer Generator returns
fallback true and the fixed no-provider message for every question and every
evidence set; as a total function it never raises to the caller. -/
theorem generate_no_provider_fixed_fallback
    (callModel : String → String → Except String String) (question : String)
    (evidence : List ScoredChunk) :
    (generate callModel question evidence none).fallback = true ∧
    (generate callModel question evidence none).answer = noProviderMessage ∧
    generate callModel question evidence none =
      { answer := noProviderMessage, context_tokens := 0, provider := none,
        model := none, fallback := true, error := none } :=
  ⟨rfl, rfl, rfl⟩

/-- Claim C4: applying the balanced preset from any starting configuration
yields top_n five, target_tokens sixteen hundred and coverage_target seven
tenths, while every field the preset does not define keeps its prior
value. -/
theorem applyPreset_balanced_round_trip (cfg : RetrievalConfig) :
    (applyPreset PresetName.balanced cfg).top_n = 5 ∧
    (applyPreset PresetName.balanced cfg).target_tokens = 1600 ∧
    (applyPreset PresetName.balanced cfg).coverage_target = 7/10 ∧
    (applyPreset PresetName.balanced cfg).hybrid = cfg.hybrid ∧
    (applyPreset PresetName.balanced cfg).dense_k = cfg.dense_k ∧
    (applyPreset PresetName.balanced cfg).sparse_k = cfg.sparse_k ∧
    (applyPreset PresetName.balanced cfg).rerank_pool = cfg.rerank_pool ∧
    (applyPreset PresetName.balanced cfg).compression = cfg.compression ∧
    (applyPreset PresetName.balanced cfg).raptor_mode = cfg.raptor_mode ∧
    (applyPreset PresetName.balanced cfg).graph = cfg.graph ∧
    (applyPreset PresetName.balanced cfg).max_context_tokens = cfg.max_context_tokens :=
  ⟨rfl, rfl, rfl, rfl, rfl, rfl, rfl, rfl, rfl, rfl, rfl⟩

/-- Claim C5: the admin console query call sends exactly the single-key
object with the question, and the QueryResponse it consumes is in exact
field-for-field correspondence with the QueryResult of section 3, carrying
answer, evidence chunks, trace id, metrics and the PipelineStep sequence. -/
theorem handleAsk_request_and_response_shape :
    (∀ question : String,
      handleAskBody question = JsonValue.obj [("question", JsonValue.str question)]) ∧
    (∀ r : QueryResponse,
      r.toSpec.toResponse = r ∧ r.toSpec.answer = r.answer ∧
      r.toSpec.evidence = r.chunks ∧ r.toSpec.trace_id = r.trace_id ∧
      r.toSpec.metrics = r.metrics ∧ r.toSpec.steps = r.steps) ∧
    (∀ s : QueryResult, s.toResponse.toSpec = s) :=
  ⟨fun _ => rfl, fun _ => ⟨rfl, rfl, rfl, rfl, rfl, rfl⟩, fun _ => rfl⟩

/-- Claim C6, counterexample: starting from defaults that satisfy the
documented invariant, one per-field numeric update from the console produces
a configuration violating top_n at most rerank_pool, so the invariant is not
preserved by the per-field updates. -/
theorem updateRetrieval_breaks_invariant :
    retrievalInvariant sampleDefaults ∧
    ¬ retrievalInvariant (updateRetrievalNumber sampleDefaults NumericField.top_n 100) := by
  constructor
  · norm_num [retrievalInvariant, sampleDefaults]
  · norm_num [retrievalInvariant, updateRetrievalNumber, sampleDefaults]

/-- Claim C6, amended: the per-field numeric update of the console replaces
exactly the named field with the given value and leaves every other field
unchanged, performing no validation. -/
theorem handleNumber_updates_exactly_one_field
    (r : RetrievalDefaults) (f : NumericField) (v : ℚ) :
    numField (updateRetrievalNumber r f v) f = v ∧
    (∀ g : NumericField, g ≠ f →
      numField (updateRetrievalNumber r f v) g = numField r g) ∧
    (updateRetrievalNumber r f v).hybrid = r.hybrid ∧
    (updateRetrievalNumber r f v).compression = r.compression ∧
    (updateRetrievalNumber r f v).raptor = r.raptor ∧
    (updateRetrievalNumber r f v).graph = r.graph := by
  refine ⟨?_, ?_, ?_, ?_, ?_, ?_⟩
  · cases f <;> rfl
  · intro g hg
    cases f <;> cases g <;> first | rfl | exact absurd rfl hg
  · cases f <;> rfl
  · cases f <;> rfl
  · cases f <;> rfl
  · cases f <;> rfl

/-- Witness for the amended claim C6 at a concrete update. -/
theorem handleNumber_updates_exactly_one_field_witness :
    NumericField.dense_k ≠ NumericField.top_n ∧
    numField (updateRetrievalNumber sampleDefaults NumericField.top_n 100)
        NumericField.dense_k = numField sampleDefaults NumericField.dense_k :=
  ⟨by decide,
   (handleNumber_updates_exactly_one_field sampleDefaults NumericField.top_n 100).2.1
     NumericField.dense_k (by decide)⟩

/-- Claim C7: saving a profile appends the snapshot, so every previously
saved profile is still present unchanged at its old position, and selecting
a saved profile replaces the active provider with the stored one in a single
configuration update. -/
theorem addProfile_preserves_and_select_swaps (cfg cfg2 : AppConfig)
    (newName selName : String) (prof : ProviderProfile)
    (h : cfg2.provider_profiles.find? (fun p => p.name == selName) = some prof) :
    (handleAddProfile cfg newName).provider_profiles.take
        cfg.provider_profiles.length = cfg.provider_profiles ∧
    selectProfile cfg2 selName =
      { cfg2 with profile := selName, provider := some prof.provider } := by
  constructor
  · unfold handleAddProfile
    rcases hcp : cfg.provider with _ | prov
    · simp
    · by_cases ht : newName.trim.isEmpty = true
      · simp [ht]
      · simp [ht, List.take_left]
  · simp [selectProfile, h]

/-- Witness for claim C7 at a concrete configuration with one saved
profile. -/
theorem addProfile_preserves_and_select_swaps_witness :
    (sampleAppConfig.provider_profiles.find? (fun p => p.name == "Local") =
      some { name := "Local", provider := sampleProvider }) ∧
    ((handleAddProfile sampleAppConfig "Cloud").provider_profiles.take
        sampleAppConfig.provider_profiles.length = sampleAppConfig.provider_profiles ∧
      selectProfile sampleAppConfig "Local" =
        { sampleAppConfig with profile := "Local", provider := some sampleProvider }) :=
  ⟨by decide,
   addProfile_preserves_and_select_swaps sampleAppConfig sampleAppConfig "Cloud" "Local"
     { name := "Local", provider := sampleProvider } (by decide)⟩

/-- Claim C8: a failed local-provider probe still contributes an entry for
its provider to the discovery result, carrying status error and the error
message, so an erroring runtime is distinguishable from an absent one. -/
theorem discovery_keeps_failed_provider
    (probes : List (ProviderKind × String × String × Except String ProbeOk))
    (kind : ProviderKind) (name url msg : String)
    (h : (kind, name, url, Except.error msg) ∈ probes) :
    ∃ e ∈ discoverLocalProviders probes,
      e.kind = kind ∧ e.name = name ∧ e.base_url = url ∧
      e.status = some "error" ∧ e.error_message = some msg :=
  ⟨_, List.mem_map_of_mem _ h, rfl, rfl, rfl, rfl, rfl⟩

/-- Witness for claim C8 at a concrete failed probe. -/
theorem discovery_keeps_failed_provider_witness :
    ((ProviderKind.ollama, "Ollama", "http://localhost:11434",
        (Except.error "connection refused" : Except String ProbeOk)) ∈
      [(ProviderKind.ollama, "Ollama", "http://localhost:11434",
        (Except.error "connection refused" : Except String ProbeOk))]) ∧
    ∃ e ∈ discoverLocalProviders
        [(ProviderKind.ollama, "Ollama", "http://localhost:11434",
          (Except.error "connection refused" : Except String ProbeOk))],
      e.kind = ProviderKind.ollama ∧ e.name = "Ollama" ∧
      e.base_url = "http://localhost:11434" ∧ e.status = some "error" ∧
      e.error_message = some "connection refused" :=
  ⟨by simp,
   discovery_keeps_failed_provider _ ProviderKind.ollama "Ollama"
     "http://localhost:11434" "connection refused" (by simp)⟩

/-- Claim C10: selecting a profile name with no matching saved profile
leaves the configuration object entirely unchanged; with a match, exactly
the recorded profile name and the active provider are replaced, while the
retrieval settings and the saved profile list are untouched. -/
theorem selectProfile_frame (cfg : AppConfig) (name : String) :
    (cfg.provider_profiles.find? (fun p => p.name == name) = none →
      selectProfile cfg name = cfg) ∧
    (∀ prof : ProviderProfile,
      cfg.provider_profiles.find? (fun p => p.name == name) = some prof →
        (selectProfile cfg name).profile = name ∧
        (selectProfile cfg name).provider = some prof.provider ∧
        (selectProfile cfg name).retrieval = cfg.retrieval ∧
        (selectProfile cfg name).provider_profiles = cfg.provider_profiles) := by
  constructor
  · intro h
    simp [selectProfile, h]
  · intro prof h
    simp [selectProfile, h]

/-- Witness for claim C10 at a concrete configuration and a name that is not
saved. -/
theorem selectProfile_frame_witness :
    (sampleAppConfig.provider_profiles.find? (fun p => p.name == "Missing") = none) ∧
    selectProfile sampleAppConfig "Missing" = sampleAppConfig :=
  ⟨by decide, (selectProfile_frame sampleAppConfig "Missing").1 (by decide)⟩

/-- Unfolding equation for the per-file states of the upload loop. -/
theorem processStates_cons (acc : List UploadProgress) (f : String × UploadOutcome)
    (rest : List (String × UploadOutcome)) :
    processStates acc (f :: rest) =
      (acc ++ upEntry f :: rest.map pendEntry) ::
        (acc ++ finishedEntry f :: rest.map pendEntry) ::
          processStates (acc ++ [finishedEntry f]) rest := rfl

/-- The state list of a non-empty upload run ends with the fully terminal
queue. -/
theorem processStates_split_last (acc : List UploadProgress) :
    ∀ l : List (String × UploadOutcome), l ≠ [] →
      ∃ pre, processStates acc l = pre ++ [acc ++ l.map finishedEntry] := by
  intro l
  induction l generalizing acc with
  | nil => intro hne; exact absurd rfl hne
  | cons f rest ih =>
    intro _
    rcases rest with _ | ⟨g, rs⟩
    · exact ⟨[acc ++ [upEntry f]], by simp [processStates_cons, processStates]⟩
    · obtain ⟨pre, hpre⟩ := ih (acc ++ [finishedEntry f]) (by simp)
      refine ⟨(acc ++ upEntry f :: (g :: rs).map pendEntry) ::
        (acc ++ finishedEntry f :: (g :: rs).map pendEntry) :: pre, ?_⟩
      rw [processStates_cons, hpre]
      simp

/-- For every index of the valid file list, the run contains the state in
which exactly that file is uploading, all earlier files are terminal and all
later files are pending. -/
theorem processStates_mem_up :
    ∀ (rest : List (String × UploadOutcome)) (acc : List UploadProgress)
      (j : ℕ) (f : String × UploadOutcome) (tail : List (String × UploadOutcome)),
      rest.drop j = f :: tail →
      (acc ++ (rest.take j).map finishedEntry ++ upEntry f :: tail.map pendEntry) ∈
        processStates acc rest := by
  intro rest
  induction rest with
  | nil => intro acc j f tail h; simp at h
  | cons g rs ih =>
    intro acc j f tail h
    cases j with
    | zero =>
      simp only [List.drop_zero] at h
      obtain ⟨hg, ht⟩ : g = f ∧ rs = tail := by
        constructor
        · exact (List.cons.injEq g rs f tail ▸ h).1
        · exact (List.cons.injEq g rs f tail ▸ h).2
      subst hg
      subst ht
      simp [processStates_cons, List.mem_cons]
    | succ j2 =>
      simp only [List.drop_succ_cons] at h
      have hm := ih (acc ++ [finishedEntry g]) j2 f tail h
      rw [processStates_cons]
      refine List.mem_cons_of_mem _ (List.mem_cons_of_mem _ ?_)
      simpa [List.take_succ_cons, List.append_assoc] using hm

/-- Every state of the per-file loop splits the valid list at some index:
earlier files terminal, the current file uploading or just terminal, later
files pending. -/
theorem processStates_shape :
    ∀ (rest front : List (String × UploadOutcome)) (s : List UploadProgress),
      s ∈ processStates (front.map finishedEntry) rest →
      ∃ j f tail, rest.drop j = f :: tail ∧
        (s = ((front ++ rest.take j).map finishedEntry) ++
            upEntry f :: tail.map pendEntry ∨
         s = ((front ++ rest.take j).map finishedEntry) ++
            finishedEntry f :: tail.map pendEntry) := by
  intro rest
  induction rest with
  | nil => intro front s hs; simp [processStates] at hs
  | cons g rs ih =>
    intro front s hs
    rw [processStates_cons] at hs
    rcases List.mem_cons.mp hs with h1 | hs2
    · exact ⟨0, g, rs, rfl, Or.inl (by simp [h1])⟩
    rcases List.mem_cons.mp hs2 with h2 | hs3
    · exact ⟨0, g, rs, rfl, Or.inr (by simp [h2])⟩
    · have hs4 : s ∈ processStates ((front ++ [g]).map finishedEntry) rs := by
        simpa [List.map_append] using hs3
      obtain ⟨j, f, tail, hdrop, hshape⟩ := ih (front ++ [g]) s hs4
      refine ⟨j + 1, f, tail, ?_, ?_⟩
      · simpa [List.drop_succ_cons] using hdrop
      · rcases hshape with hcase | hcase
        · left
          rw [hcase]
          simp [List.take_succ_cons, List.append_assoc]
        · right
          rw [hcase]
          simp [List.take_succ_cons, List.append_assoc]

/-- Last element of a non-empty list that ends in an explicit singleton. -/
theorem getLast?_cons_append_singleton {α : Type} (a : α) (l : List α) (x : α) :
    (a :: (l ++ [x])).getLast? = some x := by
  induction l generalizing a with
  | nil => rfl
  | cons b t ih => exact ih b

/-- Claim C9: the batch upload queue is an explicit queue of filename-status
entries whose status stays within the declared five-value union; every entry
starts pending, files are processed strictly sequentially so that every
reachable queue state splits into a terminal prefix, at most one current
entry, and a pending suffix; each entry is marked uploading when its turn
starts, and the final state marks each entry done exactly on upload success
and error exactly on failure. -/
theorem uploadQueue_sequential_state_machine
    (files : List (String × UploadOutcome)) (h : validFiles files ≠ []) :
    (processFilesStates files).head? = some ((validFiles files).map pendEntry) ∧
    (processFilesStates files).getLast? =
      some ((validFiles files).map finishedEntry) ∧
    (∀ n, finishedEntry (n, UploadOutcome.ok) =
      { filename := n, status := UploadStatus.done, error := none }) ∧
    (∀ n m, finishedEntry (n, UploadOutcome.failed m) =
      { filename := n, status := UploadStatus.error, error := some m }) ∧
    (∀ j f tail, (validFiles files).drop j = f :: tail →
      (((validFiles files).take j).map finishedEntry ++
          upEntry f :: tail.map pendEntry) ∈ processFilesStates files) ∧
    (∀ s, s ∈ processFilesStates files → seqShape (validFiles files) s) ∧
    (∀ s, s ∈ processFilesStates files → ∀ e, e ∈ s →
      e.status = UploadStatus.pending ∨ e.status = UploadStatus.uploading ∨
      e.status = UploadStatus.processing ∨ e.status = UploadStatus.done ∨
      e.status = UploadStatus.error) := by
  have hie : (validFiles files).isEmpty = false := by
    cases hvv : validFiles files with
    | nil => exact absurd hvv h
    | cons a b => rfl
  have hunf : processFilesStates files =
      (validFiles files).map pendEntry :: processStates [] (validFiles files) := by
    unfold processFilesStates
    rw [hie]
    rfl
  refine ⟨?_, ?_, fun n => rfl, fun n m => rfl, ?_, ?_, ?_⟩
  · rw [hunf]
    rfl
  · rw [hunf]
    obtain ⟨pre, hpre⟩ := processStates_split_last [] (validFiles files) h
    rw [hpre]
    exact getLast?_cons_append_singleton _ _ _
  · intro j f tail hdrop
    rw [hunf]
    refine List.mem_cons_of_mem _ ?_
    have hm := processStates_mem_up (validFiles files) [] j f tail hdrop
    simpa using hm
  · intro s hs
    rw [hunf] at hs
    rcases List.mem_cons.mp hs with h1 | h2
    · exact ⟨0, Or.inl (by simp [h1])⟩
    · have h3 : s ∈ processStates (([] : List (String × UploadOutcome)).map finishedEntry)
          (validFiles files) := h2
      obtain ⟨j, f, tail, hdrop, hshape⟩ :=
        processStates_shape (validFiles files) [] s h3
      refine ⟨j, Or.inr ⟨f, tail, hdrop, ?_⟩⟩
      rcases hshape with hcase | hcase
      · left
        simpa using hcase
      · right
        simpa using hcase
  · intro s hs e he
    rcases e with ⟨fn, st, er⟩
    cases st <;> simp

/-- Witness for claim C9 at a concrete batch with one success, one failure
and one filtered-out file. -/
theorem uploadQueue_sequential_state_machine_witness :
    validFiles [("a.pdf", UploadOutcome.ok), ("b.txt", UploadOutcome.failed "boom"),
        ("c.exe", UploadOutcome.ok)] ≠ [] ∧
    (processFilesStates [("a.pdf", UploadOutcome.ok),
        ("b.txt", UploadOutcome.failed "boom"), ("c.exe", UploadOutcome.ok)]).head? =
      some ((validFiles [("a.pdf", UploadOutcome.ok),
        ("b.txt", UploadOutcome.failed "boom"),
        ("c.exe", UploadOutcome.ok)]).map pendEntry) :=
  ⟨by decide,
   (uploadQueue_sequential_state_machine
     [("a.pdf", UploadOutcome.ok), ("b.txt", UploadOutcome.failed "boom"),
      ("c.exe", UploadOutcome.ok)] (by decide)).1⟩

end JRAutoRAG
